import Mathlib

/-!
Verification development for the ALS-Dimmer CSV visualization tool
(`src/tools/visualize_csv.py`).

The script is a linear pipeline: parse arguments, load a CSV with
pandas, compose a four-panel chart, save it, optionally display it, and
print summary statistics.  We embed it shallowly in two layers:

* a raw layer (`DataFrame`, `read_csv`, `DataFrame.col`, `loadPhase`,
  `chartPhase`) modelling the untyped CSV table and pandas' load /
  column-access behaviour, used for the load-time and error-handling
  claims;
* a typed layer (`LogRecord` lists together with the summary and chart
  functions) for the tables that survive loading, used for the summary
  statistics, frame and determinism claims.

Machine floats of the script carry only log data; they are modelled by
`Rat`.  All definitions are executable.
-/

namespace ALSVis

/-! ## Raw CSV layer -/

/-- An untyped tabular structure as produced by `pd.read_csv`: a header
(column names) plus data rows of raw cell strings. -/
structure DataFrame where
  columns : List String
  rows : List (List String)
deriving Repr, DecidableEq

/-- Modelled behaviour of `pd.read_csv` (line 79) on an already-read file,
given as a list of lines each split into cells: an empty file raises
`EmptyDataError`; a data row with more fields than the header raises a
tokenizing `ParserError`; otherwise the first line is the header and the
remaining lines are the data rows.  `read_csv` performs no inspection of
the column names. -/
def read_csv (file : List (List String)) : Except String DataFrame :=
  match file with
  | [] => .error "No columns to parse from file"
  | header :: rs =>
    if rs.all (fun r => r.length ≤ header.length) then
      .ok ⟨header, rs⟩
    else
      .error "Error tokenizing data"

/-- Column access `df[c]` (pandas `__getitem__`): the list of cells of
column `c`, or a `KeyError` when `c` is not among the columns. -/
def DataFrame.col (df : DataFrame) (c : String) : Except String (List String) :=
  match df.columns.findIdx? (fun k => k == c) with
  | some i => .ok (df.rows.map (fun r => r.getD i ""))
  | none => .error ("KeyError: " ++ c)

/-- The load block of the script (lines 78-86): `pd.read_csv` wrapped in
`try/except` printing `Error loading CSV: ...` and exiting 1, followed by
the emptiness check printing `Error: CSV file is empty` and exiting 1.
On success it returns the loaded table. -/
def loadPhase (file : List (List String)) : Except (String × Nat) DataFrame :=
  match read_csv file with
  | .error e => .error ("Error loading CSV: " ++ e, 1)
  | .ok df =>
    if df.rows.length = 0 then .error ("Error: CSV file is empty", 1)
    else .ok df

/-- The nine columns the script reads (data model of the spec). -/
def requiredColumns : List String :=
  ["timestamp", "lux", "target_brightness", "current_brightness",
   "error", "step_size", "step_category", "zone", "zone_changed"]

/-- The chart-composition block (lines 91-164) as far as column accesses
are concerned: it dereferences the nine columns in source order
(`df['timestamp']` and `df['lux']` at line 95, ..., `df['zone_changed']`
at line 154); any missing column surfaces as an uncaught `KeyError`. -/
def chartPhase (df : DataFrame) : Except String Unit :=
  (df.col "timestamp").bind fun _ =>
  (df.col "lux").bind fun _ =>
  (df.col "target_brightness").bind fun _ =>
  (df.col "current_brightness").bind fun _ =>
  (df.col "error").bind fun _ =>
  (df.col "step_size").bind fun _ =>
  (df.col "step_category").bind fun _ =>
  (df.col "zone").bind fun _ =>
  (df.col "zone_changed").bind fun _ =>
  .ok ()

/-! ## Argument resolution (`parse_arguments`, lines 17-71)

Paths are modelled as strings; `pathlib.Path.name` is the part after the
last `/`, and `Path.suffix` / `Path.with_suffix` follow pathlib's
last-dot rule on that name (a leading or trailing dot of the name does
not start a suffix).  Path normalisation (`.`/`..`/doubled slashes) is
not modelled; no claim depends on it. -/

/-- The final path component (`pathlib.Path.name`), on character lists. -/
def nameChars (cs : List Char) : List Char :=
  (cs.reverse.takeWhile (fun c => c ≠ '/')).reverse

/-- `pathlib` suffix of a file NAME (not a full path): the part of the
name from its last dot, provided that dot is neither the first nor the
last character; otherwise empty. -/
def nameSuffix (cs : List Char) : List Char :=
  match cs.reverse.findIdx? (fun c => c == '.') with
  | none => []
  | some j =>
    let i := cs.length - 1 - j
    if 0 < i ∧ i < cs.length - 1 then cs.drop i else []

/-- `Path.suffix` of a path string. -/
def pathSuffix (p : String) : String :=
  ⟨nameSuffix (nameChars p.toList)⟩

/-- `str(Path(p).with_suffix('.png'))` (line 58): strip the name's
suffix, if any, and append `.png`. -/
def withSuffixPng (p : String) : String :=
  let cs := p.toList
  let nm := nameChars cs
  let dir := cs.take (cs.length - nm.length)
  let suf := nameSuffix nm
  ⟨dir ++ nm.take (nm.length - suf.length) ++ ('.' :: ['p', 'n', 'g'])⟩

/-- Python `str.endswith` (line 68). -/
def strEndsWith (s suf : String) : Bool :=
  suf.toList.isSuffixOf s.toList

/-- Python `str.lstrip('.')` (line 62). -/
def lstripDots (s : String) : String :=
  ⟨s.toList.dropWhile (fun c => c == '.')⟩

/-- Python `str.lower` (line 62), on ASCII extension text. -/
def lowerStr (s : String) : String :=
  ⟨s.toList.map Char.toLower⟩

/-- The extension list of line 63. -/
def recognizedExts : List String := ["jpg", "jpeg", "png", "pdf", "svg"]

/-- `Path(output).suffix.lstrip('.').lower()` (line 62). -/
def extOf (out : String) : String :=
  lowerStr (lstripDots (pathSuffix out))

/-- The output-path and format resolution of `parse_arguments`
(lines 56-71), after the input-existence check: default the output to
the input with suffix `.png`; when no explicit format is given, infer it
from the output extension (`jpg` becomes `jpeg`), defaulting to `png`
and appending `.png` to the output when the extension is unrecognized
and the output does not already end with `.png`.  Returns the resolved
(output, format) pair. -/
def resolveArgs (input : String) (outOpt : Option String) (fmtOpt : Option String) :
    String × String :=
  let output := match outOpt with
    | some o => o
    | none => withSuffixPng input
  match fmtOpt with
  | some f => (output, f)
  | none =>
    let ext := extOf output
    if ext ∈ recognizedExts then
      (output, if ext = "jpg" then "jpeg" else ext)
    else
      (if strEndsWith output ".png" then output else output ++ ".png", "png")

/-! ## Typed table layer

A table that survived loading and charting has the nine columns; a row
is a `LogRecord`.  Numeric cells (floats in the log) are modelled by
`Rat`; `zone_changed` is the boolean-as-integer flag column. -/

/-- One CSV row of the log (data model, spec section 3). -/
structure LogRecord where
  timestamp : Rat
  lux : Rat
  target_brightness : Rat
  current_brightness : Rat
  error : Rat
  step_size : Rat
  step_category : String
  zone : String
  zone_changed : Int
deriving Repr, DecidableEq

/-- pandas `Series.max` (lines 187-190): maximum of a column; the empty
case is unreachable in the script (emptiness exits at load). -/
def seriesMax (l : List Rat) : Rat :=
  match l with
  | [] => 0
  | x :: xs => xs.foldl max x

/-- pandas `Series.min` (lines 189-190). -/
def seriesMin (l : List Rat) : Rat :=
  match l with
  | [] => 0
  | x :: xs => xs.foldl min x

/-- pandas `Series.unique` (lines 134, 145, 191): the distinct values in
order of first appearance. -/
def uniqueVals : List String → List String
  | [] => []
  | x :: xs => x :: uniqueVals (xs.filter (fun y => y ≠ x))
termination_by l => l.length
decreasing_by
  simp only [List.length_cons]
  exact Nat.lt_succ_of_le (List.length_filter_le _ _)

/-- Index of the first row holding value `z` in a column (`findIdx`). -/
def firstIdx (col : List String) (z : String) : Nat :=
  col.findIdx (fun y => y == z)

/-- pandas `Series.value_counts` (line 194): categories with their row
counts, sorted by count descending (stable merge sort, matching pandas'
stable ordering of ties). -/
def valueCounts (col : List String) : List (String × Nat) :=
  ((uniqueVals col).map (fun c => (c, (col.filter (fun y => y == c)).length))).mergeSort
    (fun a b => b.2 ≤ a.2)

/-- The summary statistics block (lines 186-196), one field per printed
value. -/
structure Summary where
  totalIterations : Nat
  duration : Rat
  updateInterval : Rat
  luxMin : Rat
  luxMax : Rat
  brightnessMin : Rat
  brightnessMax : Rat
  zonesVisited : List String
  zoneChanges : Int
  stepCategoryCounts : List (String × Nat)
  averageError : Rat
  maxError : Rat
deriving Repr, DecidableEq

/-- `df['timestamp']` as a typed column. -/
def timestamps (df : List LogRecord) : List Rat := df.map (fun r => r.timestamp)

/-- `df['zone']` as a typed column. -/
def zoneCol (df : List LogRecord) : List String := df.map (fun r => r.zone)

/-- `', '.join(df['zone'].unique())` content (line 191). -/
def zonesVisited (df : List LogRecord) : List String := uniqueVals (zoneCol df)

/-- `df['zone_changed'].sum()` (line 192). -/
def zoneChanges (df : List LogRecord) : Int :=
  (df.map (fun r => r.zone_changed)).sum

/-- The summary report as a function of the loaded table (lines 186-196):
row count, max timestamp, max timestamp / row count, lux and brightness
ranges, zones in encounter order, sum of `zone_changed`, step-category
value counts, mean and max of `|error|`. -/
def summaryOf (df : List LogRecord) : Summary where
  totalIterations := df.length
  duration := seriesMax (timestamps df)
  updateInterval := seriesMax (timestamps df) / (df.length : Rat)
  luxMin := seriesMin (df.map (fun r => r.lux))
  luxMax := seriesMax (df.map (fun r => r.lux))
  brightnessMin := seriesMin (df.map (fun r => r.current_brightness))
  brightnessMax := seriesMax (df.map (fun r => r.current_brightness))
  zonesVisited := zonesVisited df
  zoneChanges := zoneChanges df
  stepCategoryCounts := valueCounts (df.map (fun r => r.step_category))
  averageError := (df.map (fun r => |r.error|)).sum / (df.length : Rat)
  maxError := seriesMax (df.map (fun r => |r.error|))

/-! ## Chart data and the post-load pipeline -/

/-- The data the chart composer (lines 91-164) reads off the table: the
five line series, the two categorical scatters, and the timestamps of
the `zone_changed == 1` rows marked by vertical lines (line 154). -/
structure ChartData where
  luxSeries : List (Rat × Rat)
  targetSeries : List (Rat × Rat)
  currentSeries : List (Rat × Rat)
  errorSeries : List (Rat × Rat)
  stepSizeSeries : List (Rat × Rat)
  stepCatPoints : List (Rat × String)
  zonePoints : List (Rat × String)
  zoneChangeLines : List Rat
deriving Repr, DecidableEq

/-- Chart composition as a read of the table (lines 95-156). -/
def chartData (df : List LogRecord) : ChartData where
  luxSeries := df.map (fun r => (r.timestamp, r.lux))
  targetSeries := df.map (fun r => (r.timestamp, r.target_brightness))
  currentSeries := df.map (fun r => (r.timestamp, r.current_brightness))
  errorSeries := df.map (fun r => (r.timestamp, r.error))
  stepSizeSeries := df.map (fun r => (r.timestamp, r.step_size))
  stepCatPoints := df.map (fun r => (r.timestamp, r.step_category))
  zonePoints := df.map (fun r => (r.timestamp, r.zone))
  zoneChangeLines := (df.filter (fun r => r.zone_changed == 1)).map (fun r => r.timestamp)

/-- Chart composition step: reads the table, returns it with the chart. -/
def chartStep (df : List LogRecord) : List LogRecord × ChartData :=
  (df, chartData df)

/-- Save step (lines 167-173): reads nothing of the table; the outside
world decides whether `savefig` raises. -/
def saveStep (df : List LogRecord) (saveResult : Except String Unit) :
    List LogRecord × Except String Unit :=
  (df, saveResult)

/-- Display step (lines 176-180): `plt.show()` unless `--no-show`. -/
def showStep (df : List LogRecord) (noShow : Bool) : List LogRecord × Bool :=
  (df, !noShow)

/-- Summary step (lines 183-196): reads the table, prints the summary. -/
def summaryStep (df : List LogRecord) : List LogRecord × Summary :=
  (df, summaryOf df)

/-- The whole post-load pipeline with the table threaded through every
step: chart composition, save, display, summary.  Returns the table as
left by the last step together with every step's output. -/
def runAfterLoad (df : List LogRecord) (saveResult : Except String Unit)
    (noShow : Bool) :
    List LogRecord × ChartData × Except String Unit × Bool × Summary :=
  let (df1, chart) := chartStep df
  let (df2, saved) := saveStep df1 saveResult
  let (df3, shown) := showStep df2 noShow
  let (df4, summ) := summaryStep df3
  (df4, chart, saved, shown, summ)

/-! ## Observable events after chart composition (lines 166-196) -/

/-- Console/window events the script can emit after the figure exists. -/
inductive Event where
  | savedMessage (fmt : String) (dpi : Int)
  | saveErrorMessage (e : String)
  | showWindow
  | skipShowMessage
  | summaryReport (s : Summary)
deriving Repr, DecidableEq

/-- The output phase (lines 167-196): `savefig` in `try/except` — on
failure print the save error and exit 1; on success print the saved
message, then show the window (or the skip message under `--no-show`),
then print the summary report.  Returns the emitted events in order and
the early exit code, if any. -/
def outputPhase (df : List LogRecord) (fmt : String) (dpi : Int)
    (saveResult : Except String Unit) (noShow : Bool) :
    List Event × Option Nat :=
  match saveResult with
  | .error e => ([.saveErrorMessage e], some 1)
  | .ok _ =>
    ([.savedMessage fmt dpi] ++
      (if noShow then [.skipShowMessage] else [.showWindow]) ++
      [.summaryReport (summaryOf df)], none)

/-! ## Concrete sample tables -/

/-- A two-row well-formed log table used to instantiate theorems. -/
def dfSample : List LogRecord :=
  [⟨1, 120, 50, 40, 10, 5, "small_up", "indoor", 0⟩,
   ⟨2, 300, 60, 55, 5, 2, "medium_up", "outdoor", 1⟩]

/-- A one-row table whose `zone_changed` cell holds 2 rather than 0/1. -/
def dfTwo : List LogRecord :=
  [⟨1, 100, 50, 50, 0, 0, "none", "night", 2⟩]

/-- A parseable CSV file with a `timestamp` column only. -/
def fileMissingCols : List (List String) := [["timestamp"], ["1"]]

/-- A header-only CSV file (parses to zero rows). -/
def fileHeaderOnly : List (List String) := [requiredColumns]

end ALSVis

namespace ALSVis

/-! ## Helper lemmas: column access and the chart phase -/

theorem col_eq_error_of_not_mem (df : DataFrame) (c : String) (h : c ∉ df.columns) :
    df.col c = .error ("KeyError: " ++ c) := by
  unfold DataFrame.col
  have hnone : df.columns.findIdx? (fun k => k == c) = none := by
    rw [List.findIdx?_eq_none_iff]
    intro x hx
    exact beq_eq_false_iff_ne.mpr (fun hxc => h (hxc ▸ hx))
  rw [hnone]

theorem col_isOk_of_mem (df : DataFrame) (c : String) (h : c ∈ df.columns) :
    ∃ l, df.col c = .ok l := by
  unfold DataFrame.col
  cases hf : df.columns.findIdx? (fun k => k == c) with
  | none =>
    rw [List.findIdx?_eq_none_iff] at hf
    have := hf c h
    simp at this
  | some i => exact ⟨_, rfl⟩

theorem mem_of_col_ok (df : DataFrame) (c : String) (l : List String)
    (h : df.col c = .ok l) : c ∈ df.columns := by
  by_contra hn
  rw [col_eq_error_of_not_mem df c hn] at h
  cases h

theorem except_bind_ok {α β : Type} {x : Except String α} {f : α → Except String β}
    {b : β} (h : x.bind f = .ok b) : ∃ a, x = .ok a ∧ f a = .ok b := by
  cases x with
  | error e => simp [Except.bind] at h
  | ok a => exact ⟨a, rfl, h⟩

theorem chartPhase_ok_iff (df : DataFrame) :
    chartPhase df = .ok () ↔ ∀ c ∈ requiredColumns, c ∈ df.columns := by
  constructor
  · intro h
    unfold chartPhase at h
    obtain ⟨a1, hx1, h⟩ := except_bind_ok h
    obtain ⟨a2, hx2, h⟩ := except_bind_ok h
    obtain ⟨a3, hx3, h⟩ := except_bind_ok h
    obtain ⟨a4, hx4, h⟩ := except_bind_ok h
    obtain ⟨a5, hx5, h⟩ := except_bind_ok h
    obtain ⟨a6, hx6, h⟩ := except_bind_ok h
    obtain ⟨a7, hx7, h⟩ := except_bind_ok h
    obtain ⟨a8, hx8, h⟩ := except_bind_ok h
    obtain ⟨a9, hx9, h⟩ := except_bind_ok h
    intro c hc
    simp only [requiredColumns, List.mem_cons, List.not_mem_nil, or_false] at hc
    rcases hc with rfl | rfl | rfl | rfl | rfl | rfl | rfl | rfl | rfl
    · exact mem_of_col_ok df _ _ hx1
    · exact mem_of_col_ok df _ _ hx2
    · exact mem_of_col_ok df _ _ hx3
    · exact mem_of_col_ok df _ _ hx4
    · exact mem_of_col_ok df _ _ hx5
    · exact mem_of_col_ok df _ _ hx6
    · exact mem_of_col_ok df _ _ hx7
    · exact mem_of_col_ok df _ _ hx8
    · exact mem_of_col_ok df _ _ hx9
  · intro h
    have m : ∀ c ∈ requiredColumns, ∃ l, df.col c = .ok l :=
      fun c hc => col_isOk_of_mem df c (h c hc)
    obtain ⟨l1, h1⟩ := m "timestamp" (by simp [requiredColumns])
    obtain ⟨l2, h2⟩ := m "lux" (by simp [requiredColumns])
    obtain ⟨l3, h3⟩ := m "target_brightness" (by simp [requiredColumns])
    obtain ⟨l4, h4⟩ := m "current_brightness" (by simp [requiredColumns])
    obtain ⟨l5, h5⟩ := m "error" (by simp [requiredColumns])
    obtain ⟨l6, h6⟩ := m "step_size" (by simp [requiredColumns])
    obtain ⟨l7, h7⟩ := m "step_category" (by simp [requiredColumns])
    obtain ⟨l8, h8⟩ := m "zone" (by simp [requiredColumns])
    obtain ⟨l9, h9⟩ := m "zone_changed" (by simp [requiredColumns])
    unfold chartPhase
    rw [h1, h2, h3, h4, h5, h6, h7, h8, h9]
    rfl

/-! ## Helper lemmas: `uniqueVals` -/

theorem uniqueVals_nil : uniqueVals [] = [] := by
  rw [uniqueVals]

theorem uniqueVals_cons (x : String) (xs : List String) :
    uniqueVals (x :: xs) = x :: uniqueVals (xs.filter (fun y => y ≠ x)) := by
  rw [uniqueVals]

theorem mem_uniqueVals (y : String) (l : List String) :
    y ∈ uniqueVals l ↔ y ∈ l := by
  induction l using uniqueVals.induct with
  | case1 => rw [uniqueVals_nil]
  | case2 x xs ih =>
    rw [uniqueVals_cons]
    constructor
    · intro h
      rcases List.mem_cons.mp h with rfl | h
      · exact List.mem_cons_self _ _
      · rw [ih] at h
        exact List.mem_cons_of_mem _ (List.mem_filter.mp h).1
    · intro h
      rcases List.mem_cons.mp h with rfl | h
      · exact List.mem_cons_self _ _
      · by_cases hyx : y = x
        · exact hyx ▸ List.mem_cons_self _ _
        · refine List.mem_cons_of_mem _ ?_
          rw [ih]
          exact List.mem_filter.mpr ⟨h, by simp [hyx]⟩

theorem nodup_uniqueVals (l : List String) : (uniqueVals l).Nodup := by
  induction l using uniqueVals.induct with
  | case1 => rw [uniqueVals_nil]; exact List.nodup_nil
  | case2 x xs ih =>
    rw [uniqueVals_cons]
    refine List.nodup_cons.mpr ⟨?_, ih⟩
    intro hx
    rw [mem_uniqueVals] at hx
    have := (List.mem_filter.mp hx).2
    simp at this

theorem firstIdx_cons_self (x : String) (l : List String) :
    firstIdx (x :: l) x = 0 := by
  unfold firstIdx
  rw [List.findIdx_cons]
  simp

theorem firstIdx_cons_ne (c y : String) (l : List String) (h : y ≠ c) :
    firstIdx (c :: l) y = firstIdx l y + 1 := by
  unfold firstIdx
  rw [List.findIdx_cons]
  have : (c == y) = false := beq_eq_false_iff_ne.mpr (fun hc => h hc.symm)
  rw [this]
  rfl

theorem firstIdx_filter_lt (p : String → Bool) (l : List String) :
    ∀ a b : String, a ∈ l.filter p → b ∈ l.filter p →
      firstIdx (l.filter p) a < firstIdx (l.filter p) b →
      firstIdx l a < firstIdx l b := by
  induction l with
  | nil => intro a b ha; simp at ha
  | cons c l ih =>
    intro a b ha hb hlt
    by_cases hpc : p c = true
    · rw [List.filter_cons_of_pos hpc] at ha hb hlt
      by_cases hbc : b = c
      · subst hbc
        rw [firstIdx_cons_self] at hlt
        exact absurd hlt (Nat.not_lt_zero _)
      · rw [firstIdx_cons_ne c b _ hbc] at hlt
        rw [firstIdx_cons_ne c b l hbc]
        by_cases hac : a = c
        · subst hac
          rw [firstIdx_cons_self]
          exact Nat.succ_pos _
        · rw [firstIdx_cons_ne c a _ hac] at hlt
          rw [firstIdx_cons_ne c a l hac]
          have ha' := (List.mem_cons.mp ha).resolve_left hac
          have hb' := (List.mem_cons.mp hb).resolve_left hbc
          exact Nat.succ_lt_succ (ih a b ha' hb' (Nat.lt_of_succ_lt_succ hlt))
    · rw [List.filter_cons_of_neg hpc] at ha hb hlt
      have hac : a ≠ c := fun h => hpc (h ▸ (List.mem_filter.mp ha).2)
      have hbc : b ≠ c := fun h => hpc (h ▸ (List.mem_filter.mp hb).2)
      rw [firstIdx_cons_ne c a l hac, firstIdx_cons_ne c b l hbc]
      exact Nat.succ_lt_succ (ih a b ha hb hlt)

theorem pairwise_firstIdx_uniqueVals (l : List String) :
    (uniqueVals l).Pairwise (fun a b => firstIdx l a < firstIdx l b) := by
  induction l using uniqueVals.induct with
  | case1 => rw [uniqueVals_nil]; exact List.Pairwise.nil
  | case2 x xs ih =>
    rw [uniqueVals_cons]
    refine List.pairwise_cons.mpr ⟨?_, ?_⟩
    · intro b hb
      rw [mem_uniqueVals] at hb
      have hbx : b ≠ x := by
        have := (List.mem_filter.mp hb).2
        simpa using this
      rw [firstIdx_cons_self, firstIdx_cons_ne x b xs hbx]
      exact Nat.succ_pos _
    · refine List.Pairwise.imp_of_mem ?_ ih
      intro a b ha hb hlt
      rw [mem_uniqueVals] at ha hb
      have hax : a ≠ x := by
        have := (List.mem_filter.mp ha).2
        simpa using this
      have hbx : b ≠ x := by
        have := (List.mem_filter.mp hb).2
        simpa using this
      rw [firstIdx_cons_ne x a xs hax, firstIdx_cons_ne x b xs hbx]
      exact Nat.succ_lt_succ (firstIdx_filter_lt _ xs a b ha hb hlt)

/-! ## Helper lemmas: `seriesMax` -/

theorem foldl_max_mem (xs : List Rat) : ∀ x : Rat, xs.foldl max x ∈ x :: xs := by
  induction xs with
  | nil => intro x; simp
  | cons y ys ih =>
    intro x
    simp only [List.foldl_cons]
    rcases List.mem_cons.mp (ih (max x y)) with h | h
    · rw [h]
      rcases max_choice x y with hm | hm <;> rw [hm]
      · exact List.mem_cons_self _ _
      · exact List.mem_cons_of_mem _ (List.mem_cons_self _ _)
    · exact List.mem_cons_of_mem _ (List.mem_cons_of_mem _ h)

theorem le_foldl_max (xs : List Rat) : ∀ x y : Rat, y ∈ x :: xs → y ≤ xs.foldl max x := by
  induction xs with
  | nil =>
    intro x y h
    simp only [List.foldl_nil]
    rcases List.mem_cons.mp h with rfl | h
    · exact le_refl _
    · simp at h
  | cons z zs ih =>
    intro x y h
    simp only [List.foldl_cons]
    rcases List.mem_cons.mp h with rfl | h
    · exact le_trans (le_max_left y z) (ih (max y z) _ (List.mem_cons_self _ _))
    · rcases List.mem_cons.mp h with rfl | h
      · exact le_trans (le_max_right x y) (ih (max x y) _ (List.mem_cons_self _ _))
      · exact ih (max x z) y (List.mem_cons_of_mem _ h)

theorem seriesMax_mem (l : List Rat) (h : l ≠ []) : seriesMax l ∈ l := by
  cases l with
  | nil => exact absurd rfl h
  | cons x xs => exact foldl_max_mem xs x

theorem le_seriesMax (l : List Rat) (y : Rat) (hy : y ∈ l) : y ≤ seriesMax l := by
  cases l with
  | nil => simp at hy
  | cons x xs => exact le_foldl_max xs x y hy

/-! ## Helper lemmas: error messages -/

theorem emptyMsg_ne_loadMsg (e : String) :
    "Error: CSV file is empty" ≠ "Error loading CSV: " ++ e := by
  intro h
  have hd : ("Error: CSV file is empty").data =
      ("Error loading CSV: ").data ++ e.data := by
    rw [h, String.data_append]
  have h6 : ("Error: CSV file is empty").data.take 6 =
      (("Error loading CSV: ").data ++ e.data).take 6 := by rw [hd]
  rw [List.take_append_of_le_length (by decide)] at h6
  exact absurd h6 (by decide)

/-- Every output path produced by `withSuffixPng` ends in `.png`. -/
theorem withSuffixPng_endsWith (p : String) :
    strEndsWith (withSuffixPng p) ".png" = true := by
  unfold strEndsWith
  simp only [List.isSuffixOf_iff_suffix]
  have hrep : (withSuffixPng p).toList =
      (p.toList.take (p.toList.length - (nameChars p.toList).length) ++
        (nameChars p.toList).take
          ((nameChars p.toList).length - (nameSuffix (nameChars p.toList)).length)) ++
      ['.', 'p', 'n', 'g'] := rfl
  rw [hrep]
  have h4 : (".png").toList = ['.', 'p', 'n', 'g'] := rfl
  rw [h4]
  exact List.suffix_append _ _

/-! ## The claims -/

/-- C1, counterexample: the CSV `timestamp\n1` is parseable and lacks the
required column `lux`, yet the loader accepts it — the load phase does
not detect missing required columns. -/
theorem C1_counterexample :
    read_csv fileMissingCols = .ok ⟨["timestamp"], [["1"]]⟩ ∧
    "lux" ∈ requiredColumns ∧
    "lux" ∉ (DataFrame.mk ["timestamp"] [["1"]]).columns ∧
    loadPhase fileMissingCols = .ok ⟨["timestamp"], [["1"]]⟩ :=
  ⟨rfl, by decide, by decide, rfl⟩

/-- C1 (amended): a parseable CSV with at least one data row loads
successfully even when required columns are missing; the absence
surfaces only later, as an uncaught `KeyError` when the chart
composition first accesses the missing column. -/
theorem C1_missing_column_fails_at_chart_not_load
    (file : List (List String)) (df : DataFrame) (c : String)
    (hparse : read_csv file = .ok df) (hrows : df.rows ≠ [])
    (hreq : c ∈ requiredColumns) (hmiss : c ∉ df.columns) :
    loadPhase file = .ok df ∧ chartPhase df ≠ .ok () := by
  constructor
  · unfold loadPhase
    rw [hparse]
    simp [hrows]
  · intro hok
    exact hmiss ((chartPhase_ok_iff df).mp hok c hreq)

/-- C1 witness: the amended claim at the concrete CSV `timestamp\n1`. -/
theorem C1_missing_column_fails_at_chart_not_load_witness :
    loadPhase fileMissingCols = .ok ⟨["timestamp"], [["1"]]⟩ ∧
    chartPhase ⟨["timestamp"], [["1"]]⟩ ≠ .ok () :=
  C1_missing_column_fails_at_chart_not_load fileMissingCols
    ⟨["timestamp"], [["1"]]⟩ "lux" rfl (by decide) (by decide) (by decide)

/-- C2: argument resolution — an unspecified output defaults to the
input with its extension replaced by `.png`; an unspecified format is
inferred from the output extension with `jpg` normalized to `jpeg`; an
unrecognized extension gives format `png` and appends `.png` to the
output unless the output already ends with it; and the three concrete
examples of the spec hold. -/
theorem C2_argument_resolution :
    (∀ input fmtOpt, (resolveArgs input none fmtOpt).1 = withSuffixPng input) ∧
    (∀ input out, extOf out ∈ recognizedExts →
      resolveArgs input (some out) none =
        (out, if extOf out = "jpg" then "jpeg" else extOf out)) ∧
    (∀ input out, extOf out ∉ recognizedExts →
      resolveArgs input (some out) none =
        ((if strEndsWith out ".png" then out else out ++ ".png"), "png")) ∧
    resolveArgs "a.csv" none none = ("a.png", "png") ∧
    (resolveArgs "in.csv" (some "x.jpg") none).2 = "jpeg" ∧
    resolveArgs "in.csv" (some "x.xyz") none = ("x.xyz.png", "png") := by
  refine ⟨?_, ?_, ?_, by decide, by decide, by decide⟩
  · intro input fmtOpt
    cases fmtOpt with
    | some f => rfl
    | none =>
      unfold resolveArgs
      by_cases h : extOf (withSuffixPng input) ∈ recognizedExts
      · simp [h]
      · simp [h, withSuffixPng_endsWith]
  · intro input out h
    unfold resolveArgs
    simp [h]
  · intro input out h
    unfold resolveArgs
    simp [h]

/-- C2 witness: the recognized-extension and unrecognized-extension
branches at concrete output paths. -/
theorem C2_argument_resolution_witness :
    resolveArgs "b.csv" (some "y.pdf") none = ("y.pdf", "pdf") ∧
    resolveArgs "b.csv" (some "y.bmp") none = ("y.bmp.png", "png") :=
  ⟨(C2_argument_resolution.2.1 "b.csv" "y.pdf" (by decide)).trans (by decide),
   (C2_argument_resolution.2.2.1 "b.csv" "y.bmp" (by decide)).trans (by decide)⟩

/-- C3: a header-only CSV (successful parse, zero rows) is rejected with
the empty-dataset message and exit status 1; a parse failure is rejected
with the load-error message and exit status 1; the two messages are
distinct. -/
theorem C3_load_failures (file : List (List String)) :
    (∀ df, read_csv file = .ok df → df.rows = [] →
      loadPhase file = .error ("Error: CSV file is empty", 1)) ∧
    (∀ e, read_csv file = .error e →
      loadPhase file = .error ("Error loading CSV: " ++ e, 1)) ∧
    (∀ e, "Error: CSV file is empty" ≠ "Error loading CSV: " ++ e) := by
  refine ⟨?_, ?_, emptyMsg_ne_loadMsg⟩
  · intro df h hrows
    unfold loadPhase
    rw [h]
    simp [hrows]
  · intro e h
    unfold loadPhase
    rw [h]

/-- C3 witness: the header-only file and the empty file. -/
theorem C3_load_failures_witness :
    loadPhase fileHeaderOnly = .error ("Error: CSV file is empty", 1) ∧
    loadPhase [] = .error ("Error loading CSV: " ++ "No columns to parse from file", 1) ∧
    "Error: CSV file is empty" ≠ "Error loading CSV: " ++ "x" :=
  ⟨(C3_load_failures fileHeaderOnly).1 ⟨requiredColumns, []⟩ rfl rfl,
   (C3_load_failures []).2.1 "No columns to parse from file" rfl,
   (C3_load_failures []).2.2 "x"⟩

/-- C4, counterexample: on a table whose single row has
`zone_changed = 2` the printed value — the column sum — is 2, but the
count of rows with `zone_changed == 1` is 0; the claim fails for this
loaded table. -/
theorem C4_counterexample :
    zoneChanges dfTwo ≠
      ((dfTwo.filter (fun r => r.zone_changed == 1)).length : Int) := by
  decide

/-- C4 (amended): the printed `Zone changes` value is the sum of the
`zone_changed` column; when every `zone_changed` cell is the
boolean-as-integer 0 or 1 — the data-model invariant — this sum equals
the count of rows with `zone_changed == 1`. -/
theorem C4_zone_changes_sum (df : List LogRecord)
    (h : ∀ r ∈ df, r.zone_changed = 0 ∨ r.zone_changed = 1) :
    zoneChanges df = ((df.filter (fun r => r.zone_changed == 1)).length : Int) := by
  induction df with
  | nil => rfl
  | cons r rs ih =>
    have hr := h r (List.mem_cons_self _ _)
    have hrs := fun x hx => h x (List.mem_cons_of_mem _ hx)
    unfold zoneChanges at ih ⊢
    simp only [List.map_cons, List.sum_cons]
    rcases hr with h0 | h1
    · rw [List.filter_cons_of_neg (by simp [h0]), h0, ih hrs]
      simp
    · rw [List.filter_cons_of_pos (by simp [h1]), h1, ih hrs]
      simp only [List.length_cons]
      push_cast
      ring

/-- C4 witness: the amended claim on a 0/1-flagged table. -/
theorem C4_zone_changes_sum_witness :
    zoneChanges dfSample =
      ((dfSample.filter (fun r => r.zone_changed == 1)).length : Int) :=
  C4_zone_changes_sum dfSample (by decide)

/-- C5: for a non-empty table, the zones-visited list contains each
distinct zone value exactly once (no duplicates, same membership as the
zone column) and is ordered by the index of each zone's first
occurrence. -/
theorem C5_zones_visited (df : List LogRecord) (_h : df ≠ []) :
    (zonesVisited df).Nodup ∧
    (∀ z, z ∈ zonesVisited df ↔ z ∈ zoneCol df) ∧
    (zonesVisited df).Pairwise
      (fun a b => firstIdx (zoneCol df) a < firstIdx (zoneCol df) b) :=
  ⟨nodup_uniqueVals _, fun z => mem_uniqueVals z _, pairwise_firstIdx_uniqueVals _⟩

/-- C5 witness: the zones-visited properties at a concrete table. -/
theorem C5_zones_visited_witness :
    (zonesVisited dfSample).Nodup ∧
    ("indoor" ∈ zonesVisited dfSample ↔ "indoor" ∈ zoneCol dfSample) ∧
    (zonesVisited dfSample).Pairwise
      (fun a b => firstIdx (zoneCol dfSample) a < firstIdx (zoneCol dfSample) b) :=
  ⟨(C5_zones_visited dfSample (by decide)).1,
   (C5_zones_visited dfSample (by decide)).2.1 "indoor",
   (C5_zones_visited dfSample (by decide)).2.2⟩

/-- C6: for a non-empty table, the printed duration is the maximum
timestamp (it is a timestamp of the table and bounds every timestamp),
and the printed update interval is that maximum divided by the row
count. -/
theorem C6_duration_and_interval (df : List LogRecord) (h : df ≠ []) :
    (summaryOf df).duration ∈ timestamps df ∧
    (∀ t ∈ timestamps df, t ≤ (summaryOf df).duration) ∧
    (summaryOf df).updateInterval = (summaryOf df).duration / (df.length : Rat) := by
  have hts : timestamps df ≠ [] := by
    unfold timestamps
    simpa using h
  exact ⟨seriesMax_mem _ hts, fun t ht => le_seriesMax _ t ht, rfl⟩

/-- C6 witness: the duration and interval facts at a concrete table. -/
theorem C6_duration_and_interval_witness :
    (summaryOf dfSample).duration ∈ timestamps dfSample ∧
    (1 : Rat) ≤ (summaryOf dfSample).duration ∧
    (summaryOf dfSample).updateInterval =
      (summaryOf dfSample).duration / (dfSample.length : Rat) :=
  ⟨(C6_duration_and_interval dfSample (by decide)).1,
   (C6_duration_and_interval dfSample (by decide)).2.1 1 (by decide),
   (C6_duration_and_interval dfSample (by decide)).2.2⟩

/-- C7: the table is read-only after loading — every post-load step
(chart composition, save, display, summary) returns the table it was
given unchanged, and the pipeline's summary and chart read exactly the
loaded table. -/
theorem C7_table_read_only (df : List LogRecord) (saveResult : Except String Unit)
    (noShow : Bool) :
    (runAfterLoad df saveResult noShow).1 = df ∧
    (chartStep df).1 = df ∧
    (saveStep df saveResult).1 = df ∧
    (showStep df noShow).1 = df ∧
    (summaryStep df).1 = df ∧
    (runAfterLoad df saveResult noShow).2.2.2.2 = summaryOf df ∧
    (runAfterLoad df saveResult noShow).2.1 = chartData df :=
  ⟨rfl, rfl, rfl, rfl, rfl, rfl, rfl⟩

/-- C8: the summary statistics are a deterministic function of the
loaded table — equal tables give equal summary reports, every printed
value included. -/
theorem C8_summary_deterministic (df1 df2 : List LogRecord) (h : df1 = df2) :
    summaryOf df1 = summaryOf df2 := by
  rw [h]

/-- C8 witness: determinism at a concrete table. -/
theorem C8_summary_deterministic_witness :
    summaryOf dfSample = summaryOf dfSample :=
  C8_summary_deterministic dfSample dfSample rfl

/-- C9: with an explicit `--format`, the format-inference block is
skipped entirely, so the resolved output path is exactly the supplied
path (or the default derived from the input) with nothing appended,
whatever its extension. -/
theorem C9_explicit_format_keeps_output (input : String) (outOpt : Option String)
    (f : String) :
    resolveArgs input outOpt (some f) =
      ((match outOpt with
        | some o => o
        | none => withSuffixPng input), f) := by
  cases outOpt <;> rfl

/-- C10: when the save step fails, the run exits with status 1 having
emitted only the save-error message: no interactive window is shown and
no summary report is produced. -/
theorem C10_save_failure_short_circuit (df : List LogRecord) (fmt : String)
    (dpi : Int) (e : String) (noShow : Bool) :
    (outputPhase df fmt dpi (.error e) noShow).2 = some 1 ∧
    Event.showWindow ∉ (outputPhase df fmt dpi (.error e) noShow).1 ∧
    (∀ s : Summary, Event.summaryReport s ∉ (outputPhase df fmt dpi (.error e) noShow).1) := by
  refine ⟨rfl, ?_, ?_⟩
  · intro hmem
    simp [outputPhase] at hmem
  · intro s hmem
    simp [outputPhase] at hmem

end ALSVis
